import Mathlib

/-!
# Verification of the speech-recognition pipeline in `src/app.py`

Shallow embedding of the single-file application `app.py`.  The module-level
globals (`listening`, `paused`, `audio_queue`, `transcribed_text`, the
`bg_listener` handle) and the two `st.session_state` keys
(`last_transcription`, `last_error`) form the state; the button handlers and
one iteration of the worker loop become state transformers.  The external
transcription backends (`recognizer.recognize_google` /
`recognizer.recognize_sphinx`) are modelled as a function parameter returning
either a text or one of the exceptions the Python code catches.
-/

/-- An opaque captured phrase of audio (`sr.AudioData`): the pipeline never
inspects it, only hands it to the backend, so a tag suffices. -/
structure AudioUnit where
  tag : Nat
deriving DecidableEq, Repr

/-- Outcome of one raw backend call (`recognize_google` / `recognize_sphinx`):
either a transcription or one of the exceptions caught in
`transcribe_audio_data` (`sr.UnknownValueError`, `sr.RequestError e`, or any
other exception with its type name and detail). -/
inductive BackendResult where
  | ok (text : String)
  | unknownValueError
  | requestError (detail : String)
  | otherError (tyName : String) (detail : String)
deriving DecidableEq, Repr

/-- A backend: given the api name, the language tag and the audio, the result
of the raw recognition call. -/
def Backend : Type := String → String → AudioUnit → BackendResult

/-- Message produced for `sr.UnknownValueError` (app.py line 47). -/
def unintelligibleMsg : String :=
  "Speech was unintelligible ‚Äî try speaking more clearly or increasing microphone volume."

/-- Message produced for `sr.RequestError` (app.py line 50). -/
def serviceUnavailableMsg (api_choice detail : String) : String :=
  "Could not contact the recognition service (" ++ api_choice ++ "). Technical detail: " ++ detail

/-- Message produced for an unknown api choice (app.py line 44). -/
def notImplementedMsg (api_choice : String) : String :=
  "API \x27" ++ api_choice ++ "\x27 not implemented in this demo."

/-- Message produced by the catch-all handler (app.py line 52). -/
def unexpectedErrorMsg (tyName detail : String) : String :=
  "Unexpected error during transcription: " ++ tyName ++ ": " ++ detail

/-- `transcribe_audio_data(audio_data, api_choice, language)` (app.py
lines 24-52): dispatch on the api name, call the backend, and map every
exception to a `(False, message)` pair. -/
def transcribe_audio_data (backend : Backend) (audio_data : AudioUnit)
    (api_choice : String) (language : String) : Bool × String :=
  if api_choice = "Google" then
    match backend "Google" language audio_data with
    | .ok text => (true, text)
    | .unknownValueError => (false, unintelligibleMsg)
    | .requestError e => (false, serviceUnavailableMsg api_choice e)
    | .otherError ty e => (false, unexpectedErrorMsg ty e)
  else if api_choice = "Sphinx" then
    match backend "Sphinx" language audio_data with
    | .ok text => (true, text)
    | .unknownValueError => (false, unintelligibleMsg)
    | .requestError e => (false, serviceUnavailableMsg api_choice e)
    | .otherError ty e => (false, unexpectedErrorMsg ty e)
  else
    (false, notImplementedMsg api_choice)

/-- The mutable state of `app.py`: the module globals (lines 14-19) plus the
two `st.session_state` keys (lines 113-116).  `bg_listener` records whether a
background-listener handle is stored; `listener_count` and `worker_count`
count how many background listeners and worker threads have been created, so
that "no duplicate instances" is expressible. -/
structure AppState where
  listening : Bool
  paused : Bool
  audioQueue : List AudioUnit
  transcribed_text : String
  last_transcription : String
  last_error : String
  bg_listener : Bool
  listener_count : Nat
  worker_count : Nat
deriving DecidableEq, Repr

/-- The state right after the module-level initialisation of `app.py`. -/
def initialState : AppState :=
  { listening := false, paused := false, audioQueue := []
  , transcribed_text := "", last_transcription := "", last_error := ""
  , bg_listener := false, listener_count := 0, worker_count := 0 }

/-- `background_callback` (app.py lines 57-65): push one captured phrase onto
the handoff queue (FIFO: new elements at the back). -/
def background_callback (audio : AudioUnit) (s : AppState) : AppState :=
  { s with audioQueue := s.audioQueue ++ [audio] }

/-- The `if transcribed_text: transcribed_text += " " + result else ...`
append of app.py lines 82-85 (Python string truthiness: non-empty). -/
def append_text (t result : String) : String :=
  if t ≠ "" then t ++ " " ++ result else result

/-- One iteration of the worker loop `worker_process` (app.py lines 68-91):
exit (no change) if not listening; sleep if paused; pop one unit with a
timeout (empty queue: continue); transcribe it and either append the result
to `transcribed_text` (mirrored into `last_transcription`) or overwrite
`last_error`. -/
def worker_step (backend : Backend) (api_choice language : String)
    (s : AppState) : AppState :=
  if !s.listening then s
  else if s.paused then s
  else
    match s.audioQueue with
    | [] => s
    | audio :: rest =>
      let r := transcribe_audio_data backend audio api_choice language
      if r.1 then
        let t := append_text s.transcribed_text r.2
        { s with audioQueue := rest, transcribed_text := t, last_transcription := t }
      else
        { s with audioQueue := rest, last_error := r.2 }

/-- `n` successive iterations of the worker loop. -/
def worker_run (backend : Backend) (api_choice language : String) :
    Nat → AppState → AppState
  | 0, s => s
  | n + 1, s => worker_run backend api_choice language n (worker_step backend api_choice language s)

/-- The Start-button handler (app.py lines 136-155): guarded by
`start_btn and not listening`; calibration may raise (`calibration_ok` false:
the exception is caught before any state change).  On success it sets the
flags, clears the two session-state keys, stores the background-listener
handle and starts one listener and one worker thread.  Neither
`transcribed_text` nor `audio_queue` is touched. -/
def start_handler (start_btn calibration_ok : Bool) (s : AppState) : AppState :=
  if start_btn ∧ !s.listening then
    if calibration_ok then
      { s with listening := true, paused := false
             , last_error := "", last_transcription := ""
             , bg_listener := true
             , listener_count := s.listener_count + 1
             , worker_count := s.worker_count + 1 }
    else s
  else s

/-- The Pause/Resume-button handler (app.py lines 157-166): toggles `paused`
only when listening. -/
def pause_handler (pause_btn : Bool) (s : AppState) : AppState :=
  if pause_btn then
    if s.listening then { s with paused := !s.paused } else s
  else s

/-- The Stop-button handler (app.py lines 168-178): guarded by
`stop_btn and listening`; calls the stored listener stop function and clears
both flags.  The handoff queue is left untouched. -/
def stop_handler (stop_btn : Bool) (s : AppState) : AppState :=
  if stop_btn ∧ s.listening then
    { s with listening := false, paused := false }
  else s

/-- The single-shot Record-button handler (app.py lines 180-195): capture one
phrase (`mic_ok` false models an exception while recording, caught with no
state change), transcribe it inline, and either append to
`last_transcription` or overwrite `last_error`. -/
def single_shot_handler (btn mic_ok : Bool) (audio : AudioUnit)
    (backend : Backend) (api_choice language : String) (s : AppState) : AppState :=
  if btn then
    if mic_ok then
      let r := transcribe_audio_data backend audio api_choice language
      if r.1 then
        { s with last_transcription := append_text s.last_transcription r.2 }
      else
        { s with last_error := r.2 }
    else s
  else s

/-! ## Pure characterisation of a full drain of the queue -/

/-- The accumulated text after the worker processes the units of `q` in order,
starting from text `t`: each success is appended, failures change nothing. -/
def run_texts (backend : Backend) (api_choice language : String)
    (t : String) : List AudioUnit → String
  | [] => t
  | u :: rest =>
    let r := transcribe_audio_data backend u api_choice language
    run_texts backend api_choice language (if r.1 then append_text t r.2 else t) rest

/-- The error message after the worker processes the units of `q` in order,
starting from message `e`: each failure overwrites, successes change
nothing. -/
def run_error (backend : Backend) (api_choice language : String)
    (e : String) : List AudioUnit → String
  | [] => e
  | u :: rest =>
    let r := transcribe_audio_data backend u api_choice language
    run_error backend api_choice language (if r.1 then e else r.2) rest

/-- Does some unit of `q` transcribe successfully? -/
def any_success (backend : Backend) (api_choice language : String)
    (q : List AudioUnit) : Bool :=
  q.any fun u => (transcribe_audio_data backend u api_choice language).1

/-- The texts of the successful transcriptions of `q`, in order. -/
def success_texts (backend : Backend) (api_choice language : String)
    (q : List AudioUnit) : List String :=
  q.filterMap fun u =>
    let r := transcribe_audio_data backend u api_choice language
    if r.1 then some r.2 else none

/-- The messages of the failed transcriptions of `q`, in order. -/
def failure_msgs (backend : Backend) (api_choice language : String)
    (q : List AudioUnit) : List String :=
  q.filterMap fun u =>
    let r := transcribe_audio_data backend u api_choice language
    if r.1 then none else some r.2

/-- The value of `last_transcription` after the worker processes the units of
`q` in order, given accumulated text `t` and current `last_transcription`
`lt`: each success mirrors the new accumulated text, failures change
nothing. -/
def run_last (backend : Backend) (api_choice language : String)
    (t lt : String) : List AudioUnit → String
  | [] => lt
  | u :: rest =>
    let r := transcribe_audio_data backend u api_choice language
    if r.1 then
      run_last backend api_choice language (append_text t r.2) (append_text t r.2) rest
    else
      run_last backend api_choice language t lt rest

theorem run_texts_of_no_success (backend : Backend) (api_choice language : String)
    (q : List AudioUnit) (t : String)
    (h : any_success backend api_choice language q = false) :
    run_texts backend api_choice language t q = t := by
  induction q generalizing t with
  | nil => rfl
  | cons u rest ih =>
    simp only [any_success, List.any_cons, Bool.or_eq_false_iff] at h
    simp only [run_texts, h.1, Bool.false_eq_true, if_false]
    exact ih t (by simpa [any_success] using h.2)

/-- Fully draining the queue: if the state is listening and not paused, running
the worker once per queued unit empties the queue, folds the successes into
`transcribed_text` in order, overwrites `last_error` with each failure in
order, and mirrors the accumulated text into `last_transcription` at each
success. -/
theorem worker_drain (backend : Backend) (api_choice language : String)
    (q : List AudioUnit) (s : AppState)
    (hl : s.listening = true) (hp : s.paused = false) (hq : s.audioQueue = q) :
    worker_run backend api_choice language q.length s =
      { s with audioQueue := []
             , transcribed_text := run_texts backend api_choice language s.transcribed_text q
             , last_transcription :=
                 run_last backend api_choice language s.transcribed_text s.last_transcription q
             , last_error := run_error backend api_choice language s.last_error q } := by
  induction q generalizing s with
  | nil =>
    cases s
    simp_all [worker_run, run_texts, run_last, run_error]
  | cons u rest ih =>
    simp only [List.length_cons, worker_run]
    by_cases hr : (transcribe_audio_data backend u api_choice language).1
    · have hs : worker_step backend api_choice language s =
          { s with audioQueue := rest
                 , transcribed_text :=
                     append_text s.transcribed_text (transcribe_audio_data backend u api_choice language).2
                 , last_transcription :=
                     append_text s.transcribed_text (transcribe_audio_data backend u api_choice language).2 } := by
        simp [worker_step, hl, hp, hq, hr]
      rw [hs, ih _ (by simp [hl]) (by simp [hp]) (by simp)]
      simp [run_texts, run_last, run_error, hr]
    · have hs : worker_step backend api_choice language s =
          { s with audioQueue := rest
                 , last_error := (transcribe_audio_data backend u api_choice language).2 } := by
        simp [worker_step, hl, hp, hq, hr]
      rw [hs, ih _ (by simp [hl]) (by simp [hp]) (by simp)]
      simp [run_texts, run_last, run_error, hr]

/-! ## Basic lemmas about one worker iteration -/

theorem worker_step_of_not_listening (backend : Backend) (api_choice language : String)
    (s : AppState) (h : s.listening = false) :
    worker_step backend api_choice language s = s := by
  simp [worker_step, h]

theorem worker_run_of_not_listening (backend : Backend) (api_choice language : String)
    (n : Nat) (s : AppState) (h : s.listening = false) :
    worker_run backend api_choice language n s = s := by
  induction n with
  | zero => rfl
  | succ n ih =>
    simp [worker_run, worker_step_of_not_listening backend api_choice language s h, ih]

theorem worker_step_of_paused (backend : Backend) (api_choice language : String)
    (s : AppState) (h : s.paused = true) :
    worker_step backend api_choice language s = s := by
  simp only [worker_step, h, if_true]
  by_cases hl : s.listening <;> simp [hl]

/-- A worker iteration never touches the control flags, the listener handle or
the instance counters: only the queue, the texts and the error change. -/
theorem worker_step_preserves_control (backend : Backend) (api_choice language : String)
    (s : AppState) :
    (worker_step backend api_choice language s).listening = s.listening ∧
    (worker_step backend api_choice language s).paused = s.paused ∧
    (worker_step backend api_choice language s).bg_listener = s.bg_listener ∧
    (worker_step backend api_choice language s).listener_count = s.listener_count ∧
    (worker_step backend api_choice language s).worker_count = s.worker_count := by
  unfold worker_step
  by_cases hl : s.listening
  · by_cases hp : s.paused
    · simp [hl, hp]
    · simp only [hl, hp, Bool.not_true, Bool.false_eq_true, if_false]
      cases hq : s.audioQueue with
      | nil => simp_all
      | cons u rest =>
        by_cases hr : (transcribe_audio_data backend u api_choice language).1 <;>
          simp_all [hr]
  · simp [hl]

/-- A worker iteration only ever extends the accumulated text. -/
theorem worker_step_text_extends (backend : Backend) (api_choice language : String)
    (s : AppState) :
    ∃ ext, (worker_step backend api_choice language s).transcribed_text =
      s.transcribed_text ++ ext := by
  unfold worker_step
  by_cases hl : s.listening
  · by_cases hp : s.paused
    · exact ⟨"", by simp [hl, hp]⟩
    · simp only [hl, hp, Bool.not_true, Bool.false_eq_true, if_false]
      cases hq : s.audioQueue with
      | nil => exact ⟨"", by simp⟩
      | cons u rest =>
        by_cases hr : (transcribe_audio_data backend u api_choice language).1
        · by_cases ht : s.transcribed_text = ""
          · exact ⟨(transcribe_audio_data backend u api_choice language).2,
              by simp [hr, append_text, ht]⟩
          · exact ⟨" " ++ (transcribe_audio_data backend u api_choice language).2,
              by simp [hr, append_text, ht, String.append_assoc]⟩
        · exact ⟨"", by simp [hr]⟩
  · exact ⟨"", by simp [hl]⟩

/-! ## Distinguishing the four error messages -/

theorem head_of_append (p r : String) (c : Char) (h : p.data.head? = some c) :
    (p ++ r).data.head? = some c := by
  rw [String.data_append]
  cases hd : p.data with
  | nil => rw [hd] at h; simp at h
  | cons a as => rw [hd] at h; simp at h; simp [hd, h]

theorem ne_of_head (s1 s2 : String) (c1 c2 : Char)
    (h1 : s1.data.head? = some c1) (h2 : s2.data.head? = some c2) (hne : c1 ≠ c2) :
    s1 ≠ s2 := by
  intro he
  rw [he, h2] at h1
  exact hne (Option.some.inj h1).symm

theorem head_unintelligibleMsg : unintelligibleMsg.data.head? = some 'S' := by decide

theorem head_serviceUnavailableMsg (a d : String) :
    (serviceUnavailableMsg a d).data.head? = some 'C' := by
  unfold serviceUnavailableMsg
  apply head_of_append
  apply head_of_append
  apply head_of_append
  decide

theorem head_notImplementedMsg (a : String) :
    (notImplementedMsg a).data.head? = some 'A' := by
  unfold notImplementedMsg
  apply head_of_append
  apply head_of_append
  decide

theorem head_unexpectedErrorMsg (ty d : String) :
    (unexpectedErrorMsg ty d).data.head? = some 'U' := by
  unfold unexpectedErrorMsg
  apply head_of_append
  apply head_of_append
  apply head_of_append
  decide

/-! ## Claim C1: the hello / unintelligible / world scenario -/

/-- Scenario backend: unit 0 transcribes to "hello", unit 1 raises
`UnknownValueError`, unit 2 transcribes to "world". -/
def backendC1 : Backend := fun _api _language u =>
  match u.tag with
  | 0 => .ok "hello"
  | 1 => .unknownValueError
  | _ => .ok "world"

/-- Session state for C1: start pressed, then units A, B, C captured. -/
def stateC1 : AppState :=
  background_callback ⟨2⟩ (background_callback ⟨1⟩ (background_callback ⟨0⟩
    (start_handler true true initialState)))

/-- C1: with units A, B, C queued and the backend answering "hello",
Unintelligible, "world", three worker iterations leave the accumulated
transcript equal to "hello world" (successes joined by a single space, the
failure contributing nothing) and the error log equal to the failure message
produced for B. -/
theorem C1_scenario_hello_world :
    (worker_run backendC1 "Google" "en-US" 3 stateC1).transcribed_text = "hello world" ∧
    (worker_run backendC1 "Google" "en-US" 3 stateC1).last_transcription = "hello world" ∧
    (worker_run backendC1 "Google" "en-US" 3 stateC1).last_error = unintelligibleMsg := by
  refine ⟨rfl, rfl, rfl⟩

/-! ## Claim C9: the four failure kinds -/

/-- C9: `transcribe_audio_data` maps each failure cause to its own outcome:
`UnknownValueError` to the unintelligible message, `RequestError` to the
service-unavailable message carrying the detail, an unknown backend name to
the not-implemented message, and any other exception to the catch-all
message; and the four message families are pairwise distinct for all
parameter values, so a caller can tell the four outcomes apart. -/
theorem C9_error_kinds_distinguished (backend : Backend) (audio_data : AudioUnit)
    (api_choice language : String) :
    ((api_choice = "Google" ∨ api_choice = "Sphinx") →
      (backend api_choice language audio_data = .unknownValueError →
        transcribe_audio_data backend audio_data api_choice language =
          (false, unintelligibleMsg)) ∧
      (∀ d, backend api_choice language audio_data = .requestError d →
        transcribe_audio_data backend audio_data api_choice language =
          (false, serviceUnavailableMsg api_choice d)) ∧
      (∀ ty d, backend api_choice language audio_data = .otherError ty d →
        transcribe_audio_data backend audio_data api_choice language =
          (false, unexpectedErrorMsg ty d))) ∧
    (¬(api_choice = "Google" ∨ api_choice = "Sphinx") →
      transcribe_audio_data backend audio_data api_choice language =
        (false, notImplementedMsg api_choice)) ∧
    (∀ a1 a2 d1 d2 ty,
      unintelligibleMsg ≠ serviceUnavailableMsg a1 d1 ∧
      unintelligibleMsg ≠ notImplementedMsg a1 ∧
      unintelligibleMsg ≠ unexpectedErrorMsg ty d1 ∧
      serviceUnavailableMsg a1 d1 ≠ notImplementedMsg a2 ∧
      serviceUnavailableMsg a1 d1 ≠ unexpectedErrorMsg ty d2 ∧
      notImplementedMsg a1 ≠ unexpectedErrorMsg ty d1) := by
  refine ⟨?_, ?_, ?_⟩
  · rintro (h | h) <;> subst h <;>
      exact ⟨fun hb => by simp [transcribe_audio_data, hb],
        fun d hb => by simp [transcribe_audio_data, hb],
        fun ty d hb => by simp [transcribe_audio_data, hb]⟩
  · intro h
    obtain ⟨h1, h2⟩ := not_or.mp h
    simp [transcribe_audio_data, h1, h2]
  · intro a1 a2 d1 d2 ty
    refine ⟨?_, ?_, ?_, ?_, ?_, ?_⟩
    · exact ne_of_head _ _ 'S' 'C' head_unintelligibleMsg (head_serviceUnavailableMsg a1 d1)
        (by decide)
    · exact ne_of_head _ _ 'S' 'A' head_unintelligibleMsg (head_notImplementedMsg a1)
        (by decide)
    · exact ne_of_head _ _ 'S' 'U' head_unintelligibleMsg (head_unexpectedErrorMsg ty d1)
        (by decide)
    · exact ne_of_head _ _ 'C' 'A' (head_serviceUnavailableMsg a1 d1)
        (head_notImplementedMsg a2) (by decide)
    · exact ne_of_head _ _ 'C' 'U' (head_serviceUnavailableMsg a1 d1)
        (head_unexpectedErrorMsg ty d2) (by decide)
    · exact ne_of_head _ _ 'A' 'U' (head_notImplementedMsg a1)
        (head_unexpectedErrorMsg ty d1) (by decide)

/-- Backend answering `UnknownValueError` on everything, for the witnesses. -/
def backendUnintelligible : Backend := fun _ _ _ => .unknownValueError

/-- Witness for C9 at a concrete input: applying the theorem with the
always-unintelligible backend on api "Google" yields the unintelligible
outcome, and the concrete instances of the distinctness clauses hold. -/
theorem C9_error_kinds_distinguished_witness :
    transcribe_audio_data backendUnintelligible ⟨0⟩ "Google" "en-US" =
      (false, unintelligibleMsg) ∧
    unintelligibleMsg ≠ serviceUnavailableMsg "Google" "boom" :=
  ⟨((C9_error_kinds_distinguished backendUnintelligible ⟨0⟩ "Google" "en-US").1
      (Or.inl rfl)).1 rfl,
   ((C9_error_kinds_distinguished backendUnintelligible ⟨0⟩ "Google" "en-US").2.2
      "Google" "IBM" "boom" "x" "TypeError").1⟩

/-! ## Claim C10: totality of the transcription wrapper -/

/-- C10: for every backend behaviour, audio input, api choice (including
names other than "Google" and "Sphinx") and language, `transcribe_audio_data`
returns a flag/string pair: either a success carrying the backend text, or a
failure whose message is one of the four handler messages — every backend
exception is caught and mapped to a `(False, message)` pair, never
propagated. -/
theorem C10_transcribe_total (backend : Backend) (audio_data : AudioUnit)
    (api_choice language : String) :
    (∃ t, (api_choice = "Google" ∨ api_choice = "Sphinx") ∧
      backend api_choice language audio_data = .ok t ∧
      transcribe_audio_data backend audio_data api_choice language = (true, t)) ∨
    ((transcribe_audio_data backend audio_data api_choice language).1 = false ∧
      ((transcribe_audio_data backend audio_data api_choice language).2 = unintelligibleMsg ∨
       (∃ d, (transcribe_audio_data backend audio_data api_choice language).2 =
          serviceUnavailableMsg api_choice d) ∨
       (transcribe_audio_data backend audio_data api_choice language).2 =
          notImplementedMsg api_choice ∨
       (∃ ty d, (transcribe_audio_data backend audio_data api_choice language).2 =
          unexpectedErrorMsg ty d))) := by
  by_cases hg : api_choice = "Google"
  · subst hg
    cases hb : backend "Google" language audio_data with
    | ok t => exact Or.inl ⟨t, Or.inl rfl, rfl, by simp [transcribe_audio_data, hb]⟩
    | unknownValueError => exact Or.inr ⟨by simp [transcribe_audio_data, hb],
        Or.inl (by simp [transcribe_audio_data, hb])⟩
    | requestError d => exact Or.inr ⟨by simp [transcribe_audio_data, hb],
        Or.inr (Or.inl ⟨d, by simp [transcribe_audio_data, hb]⟩)⟩
    | otherError ty d => exact Or.inr ⟨by simp [transcribe_audio_data, hb],
        Or.inr (Or.inr (Or.inr ⟨ty, d, by simp [transcribe_audio_data, hb]⟩))⟩
  · by_cases hs : api_choice = "Sphinx"
    · subst hs
      cases hb : backend "Sphinx" language audio_data with
      | ok t => exact Or.inl ⟨t, Or.inr rfl, rfl, by simp [transcribe_audio_data, hb]⟩
      | unknownValueError => exact Or.inr ⟨by simp [transcribe_audio_data, hb],
          Or.inl (by simp [transcribe_audio_data, hb])⟩
      | requestError d => exact Or.inr ⟨by simp [transcribe_audio_data, hb],
          Or.inr (Or.inl ⟨d, by simp [transcribe_audio_data, hb]⟩)⟩
      | otherError ty d => exact Or.inr ⟨by simp [transcribe_audio_data, hb],
          Or.inr (Or.inr (Or.inr ⟨ty, d, by simp [transcribe_audio_data, hb]⟩))⟩
    · exact Or.inr ⟨by simp [transcribe_audio_data, hg, hs],
        Or.inr (Or.inr (Or.inl (by simp [transcribe_audio_data, hg, hs])))⟩

/-- Iterating a fixed point of the worker step changes nothing. -/
theorem worker_run_fixed (backend : Backend) (api_choice language : String)
    (s : AppState) (h : worker_step backend api_choice language s = s) (n : Nat) :
    worker_run backend api_choice language n s = s := by
  induction n with
  | zero => rfl
  | succ n ih => simp [worker_run, h, ih]

/-! ## Claim C2: error isolation -/

/-- C2: if the unit at the head of the queue fails to transcribe and the next
one succeeds, the worker still appends the successful result: the failure is
recorded in the error log after the first iteration, the success is appended
to the transcript after the second, and the loop keeps running (the listening
flag is untouched). -/
theorem C2_error_isolation (backend : Backend) (api_choice language : String)
    (s : AppState) (uk uk1 : AudioUnit) (rest : List AudioUnit)
    (hl : s.listening = true) (hp : s.paused = false)
    (hq : s.audioQueue = uk :: uk1 :: rest)
    (hfail : (transcribe_audio_data backend uk api_choice language).1 = false)
    (hok : (transcribe_audio_data backend uk1 api_choice language).1 = true) :
    (worker_run backend api_choice language 1 s).last_error =
      (transcribe_audio_data backend uk api_choice language).2 ∧
    (worker_run backend api_choice language 2 s).transcribed_text =
      append_text s.transcribed_text (transcribe_audio_data backend uk1 api_choice language).2 ∧
    (worker_run backend api_choice language 2 s).listening = true ∧
    (worker_run backend api_choice language 2 s).audioQueue = rest := by
  have h1 : worker_step backend api_choice language s =
      { s with audioQueue := uk1 :: rest
             , last_error := (transcribe_audio_data backend uk api_choice language).2 } := by
    simp [worker_step, hl, hp, hq, hfail]
  have h2 : worker_step backend api_choice language
      ({ s with audioQueue := uk1 :: rest
              , last_error := (transcribe_audio_data backend uk api_choice language).2 }) =
      { s with audioQueue := rest
             , transcribed_text :=
                 append_text s.transcribed_text (transcribe_audio_data backend uk1 api_choice language).2
             , last_transcription :=
                 append_text s.transcribed_text (transcribe_audio_data backend uk1 api_choice language).2
             , last_error := (transcribe_audio_data backend uk api_choice language).2 } := by
    simp [worker_step, hl, hp, hok]
  constructor
  · show (worker_run backend api_choice language 0 (worker_step backend api_choice language s)).last_error = _
    rw [h1]
    rfl
  · have : worker_run backend api_choice language 2 s =
        worker_step backend api_choice language (worker_step backend api_choice language s) := rfl
    rw [this, h1, h2]
    exact ⟨rfl, hl ▸ rfl, rfl⟩

/-- Scenario backend for the C2 witness: unit 0 is a service failure, unit 1
transcribes to "ok". -/
def backendC2 : Backend := fun _api _language u =>
  match u.tag with
  | 0 => .requestError "down"
  | _ => .ok "ok"

/-- Concrete listening state with units 0 and 1 queued, for the C2 witness. -/
def stateC2 : AppState :=
  background_callback ⟨1⟩ (background_callback ⟨0⟩ (start_handler true true initialState))

/-- Witness for C2 at a concrete input: unit 0 fails, unit 1 is still
transcribed and the loop is still listening. -/
theorem C2_error_isolation_witness :
    (worker_run backendC2 "Google" "en-US" 2 stateC2).transcribed_text = "ok" ∧
    (worker_run backendC2 "Google" "en-US" 2 stateC2).listening = true := by
  have h := C2_error_isolation backendC2 "Google" "en-US" stateC2 ⟨0⟩ ⟨1⟩ []
    (by decide) (by decide) (by decide) (by decide) (by decide)
  exact ⟨h.2.1.trans (by decide), h.2.2.1⟩

/-! ## Claim C3: stop is terminal (corrected) -/

/-- Scenario backend for the C3 counterexample: every unit transcribes to
"leftover". -/
def backendC3 : Backend := fun _api _language _u => .ok "leftover"

/-- Concrete listening state with one unit still queued when Stop is
pressed. -/
def stateC3 : AppState :=
  background_callback ⟨0⟩ (start_handler true true initialState)

/-- Counterexample to C3 as stated: pressing Stop leaves the captured unit in
the handoff queue (it is not discarded), and after a new Start the worker
transcribes that leftover unit — so queued-but-unprocessed units are retained
and later transcribed, not discarded. -/
theorem C3_counterexample :
    (stop_handler true stateC3).audioQueue = [⟨0⟩] ∧
    (worker_run backendC3 "Google" "en-US" 1
        (start_handler true true (stop_handler true stateC3))).transcribed_text =
      "leftover" := by
  refine ⟨rfl, rfl⟩

/-- C3 (amended): after the Stop handler runs, the listening flag is false and
every further worker iteration is a strict no-op — no transcript segment is
ever appended while the session stays stopped — but the handoff queue is left
exactly as it was, not discarded. -/
theorem C3_stop_terminal_amended (backend : Backend) (api_choice language : String)
    (s : AppState) (n : Nat) :
    (stop_handler true s).listening = false ∧
    worker_run backend api_choice language n (stop_handler true s) = stop_handler true s ∧
    (stop_handler true s).audioQueue = s.audioQueue := by
  have hl : (stop_handler true s).listening = false := by
    unfold stop_handler
    by_cases h : s.listening <;> simp [h]
  refine ⟨hl, worker_run_of_not_listening backend api_choice language n _ hl, ?_⟩
  unfold stop_handler
  by_cases h : s.listening <;> simp [h]

/-! ## Claim C4: pause inhibits consumption -/

/-- C4: while the paused flag is set (and the session is listening), any
number of worker iterations changes nothing — no unit is popped, nothing is
appended — while captured units keep accumulating at the back of the queue;
and after Resume is pressed, draining the queue transcribes every queued unit
in its original order (the accumulated text is the in-order fold of the
queue, and the queue empties). -/
theorem C4_pause_inhibits (backend : Backend) (api_choice language : String)
    (s : AppState) (hl : s.listening = true) (hp : s.paused = true) :
    (∀ n, worker_run backend api_choice language n s = s) ∧
    (∀ u, (background_callback u s).audioQueue = s.audioQueue ++ [u]) ∧
    (pause_handler true s).paused = false ∧
    (worker_run backend api_choice language s.audioQueue.length
        (pause_handler true s)).transcribed_text =
      run_texts backend api_choice language s.transcribed_text s.audioQueue ∧
    (worker_run backend api_choice language s.audioQueue.length
        (pause_handler true s)).audioQueue = [] := by
  have hstep := worker_step_of_paused backend api_choice language s hp
  have hresume : pause_handler true s = { s with paused := false } := by
    simp [pause_handler, hl, hp]
  have hd := worker_drain backend api_choice language s.audioQueue
    (pause_handler true s) (by simp [hresume, hl]) (by simp [hresume]) (by simp [hresume])
  refine ⟨fun n => worker_run_fixed backend api_choice language s hstep n,
    fun u => rfl, by simp [hresume], ?_, ?_⟩
  · rw [hd]
    simp [hresume]
  · rw [hd]

/-- Scenario backend for the C4 witness: unit 0 transcribes to "first", unit 1
to "second". -/
def backendC4 : Backend := fun _api _language u =>
  match u.tag with
  | 0 => .ok "first"
  | _ => .ok "second"

/-- Concrete paused listening state with units 0 and 1 pushed while paused. -/
def stateC4 : AppState :=
  background_callback ⟨1⟩ (background_callback ⟨0⟩
    (pause_handler true (start_handler true true initialState)))

/-- Witness for C4 at a concrete input: while paused nothing changes; after
resume both units pushed during the pause are transcribed in push order. -/
theorem C4_pause_inhibits_witness :
    worker_run backendC4 "Google" "en-US" 5 stateC4 = stateC4 ∧
    (worker_run backendC4 "Google" "en-US" 2
        (pause_handler true stateC4)).transcribed_text = "first second" := by
  have h := C4_pause_inhibits backendC4 "Google" "en-US" stateC4 (by decide) (by decide)
  exact ⟨h.1 5, h.2.2.2.1.trans (by decide)⟩

/-! ## Claim C5: transcript ordering and monotonicity -/

theorem append_ne_empty_right (a b : String) (hb : b ≠ "") : a ++ b ≠ "" := by
  intro h
  apply hb
  have h2 := congrArg String.data h
  rw [String.data_append] at h2
  have hb2 : b.data = [] := (List.append_eq_nil.mp h2).2
  cases b with
  | mk l => cases hb2; rfl

/-- "Successful results joined by a single space", stated the way the spec
reads. -/
def join_spaced : List String → String
  | [] => ""
  | [r] => r
  | r :: rest => r ++ " " ++ join_spaced rest

theorem join_spaced_append_head (t r : String) (L : List String) :
    join_spaced ((t ++ " " ++ r) :: L) = t ++ " " ++ join_spaced (r :: L) := by
  cases L with
  | nil => rfl
  | cons x xs => simp [join_spaced, String.append_assoc]

theorem run_texts_join_spaced (backend : Backend) (api_choice language : String)
    (q : List AudioUnit)
    (hne : ∀ r ∈ success_texts backend api_choice language q, r ≠ "") :
    ∀ t, run_texts backend api_choice language t q =
      if t = "" then join_spaced (success_texts backend api_choice language q)
      else join_spaced (t :: success_texts backend api_choice language q) := by
  induction q with
  | nil =>
    intro t
    by_cases ht : t = "" <;> simp [run_texts, success_texts, join_spaced, ht]
  | cons u rest ih =>
    intro t
    by_cases hr : (transcribe_audio_data backend u api_choice language).1
    · have hsts : success_texts backend api_choice language (u :: rest) =
          (transcribe_audio_data backend u api_choice language).2 ::
            success_texts backend api_choice language rest := by
        simp [success_texts, List.filterMap_cons, hr]
      have hrne : (transcribe_audio_data backend u api_choice language).2 ≠ "" := by
        apply hne
        rw [hsts]
        exact List.mem_cons_self _ _
      have hne2 : ∀ r ∈ success_texts backend api_choice language rest, r ≠ "" := by
        intro r hrm
        apply hne
        rw [hsts]
        exact List.mem_cons_of_mem _ hrm
      have hrun : run_texts backend api_choice language t (u :: rest) =
          run_texts backend api_choice language
            (append_text t (transcribe_audio_data backend u api_choice language).2) rest := by
        simp [run_texts, hr]
      rw [hrun, hsts]
      by_cases ht : t = ""
      · rw [if_pos ht]
        have : append_text t (transcribe_audio_data backend u api_choice language).2 =
            (transcribe_audio_data backend u api_choice language).2 := by
          simp [append_text, ht]
        rw [this, ih hne2 _, if_neg hrne]
      · rw [if_neg ht]
        have hap : append_text t (transcribe_audio_data backend u api_choice language).2 =
            t ++ " " ++ (transcribe_audio_data backend u api_choice language).2 := by
          simp [append_text, ht]
        have hapne : t ++ " " ++ (transcribe_audio_data backend u api_choice language).2 ≠ "" :=
          append_ne_empty_right _ _ hrne
        rw [hap, ih hne2 _, if_neg hapne, join_spaced_append_head]
        rfl
    · have hsts : success_texts backend api_choice language (u :: rest) =
          success_texts backend api_choice language rest := by
        simp [success_texts, List.filterMap_cons, hr]
      have hne2 : ∀ r ∈ success_texts backend api_choice language rest, r ≠ "" := by
        intro r hrm
        apply hne
        rw [hsts]
        exact hrm
      have hrun : run_texts backend api_choice language t (u :: rest) =
          run_texts backend api_choice language t rest := by
        simp [run_texts, hr]
      rw [hrun, hsts, ih hne2 t]

/-- C5: the transcript invariant of the worker loop.  Every single iteration
leaves the accumulated text unchanged or extends it (it never shrinks), and a
listening, unpaused worker that drains its FIFO queue accumulates exactly the
in-order fold of the queued units — with an initially empty transcript and
non-empty recognised texts this is the successful results joined by single
spaces, in dequeue order. -/
theorem C5_transcript_invariant (backend : Backend) (api_choice language : String)
    (s : AppState) (hl : s.listening = true) (hp : s.paused = false) :
    (∀ s2 : AppState, ∃ ext, (worker_step backend api_choice language s2).transcribed_text =
      s2.transcribed_text ++ ext) ∧
    (worker_run backend api_choice language s.audioQueue.length s).transcribed_text =
      run_texts backend api_choice language s.transcribed_text s.audioQueue ∧
    (s.transcribed_text = "" →
      (∀ r ∈ success_texts backend api_choice language s.audioQueue, r ≠ "") →
      (worker_run backend api_choice language s.audioQueue.length s).transcribed_text =
        join_spaced (success_texts backend api_choice language s.audioQueue)) := by
  have hd := worker_drain backend api_choice language s.audioQueue s hl hp rfl
  refine ⟨worker_step_text_extends backend api_choice language, ?_, ?_⟩
  · rw [hd]
  · intro h0 hne
    rw [hd]
    show run_texts backend api_choice language s.transcribed_text s.audioQueue = _
    rw [run_texts_join_spaced backend api_choice language s.audioQueue hne
      s.transcribed_text, if_pos h0]

/-- Witness for C5 at a concrete input: draining the two-unit queue of
`stateC2` with `backendC4` gives "first second", the space-joined successes
in order. -/
theorem C5_transcript_invariant_witness :
    (worker_run backendC4 "Google" "en-US" 2 stateC2).transcribed_text = "first second" ∧
    (worker_run backendC4 "Google" "en-US" 2 stateC2).transcribed_text =
      join_spaced (success_texts backendC4 "Google" "en-US" stateC2.audioQueue) := by
  have h := C5_transcript_invariant backendC4 "Google" "en-US" stateC2
    (by decide) (by decide)
  exact ⟨(h.2.2 (by decide) (by decide)).trans (by decide), (h.2.1).trans (by decide)⟩

/-! ## Claim C6: idempotence of start -/

/-- C6: pressing Start while already listening is a no-op — the state,
including the transcript, the stored listener handle and the created-instance
counters, is exactly unchanged — so two Starts from a non-listening state
yield the same state as one. -/
theorem C6_start_idempotent (s : AppState) (b ok : Bool) :
    (s.listening = true → start_handler b ok s = s) ∧
    (s.listening = false →
      start_handler b ok (start_handler true true s) = start_handler true true s) := by
  constructor
  · intro h
    simp [start_handler, h]
  · intro h
    simp [start_handler, h]

/-- Witness for C6 at a concrete input: a second Start after a first Start
from the initial state changes nothing (in particular only one listener and
one worker were ever created). -/
theorem C6_start_idempotent_witness :
    start_handler true true (start_handler true true initialState) =
      start_handler true true initialState ∧
    (start_handler true true initialState).worker_count = 1 ∧
    (start_handler true true initialState).listener_count = 1 := by
  refine ⟨(C6_start_idempotent initialState true true).2 (by decide), by decide, by decide⟩

/-! ## Claim C7: restart resets state (corrected) -/

/-- Scenario backend for C7: unit 0 transcribed to "old" in the first
session, unit 1 to "new" in the second. -/
def backendC7 : Backend := fun _api _language u =>
  match u.tag with
  | 0 => .ok "old"
  | _ => .ok "new"

/-- A first session that accumulated the text "old": start, capture unit 0,
one worker iteration. -/
def stateC7 : AppState :=
  worker_run backendC7 "Google" "en-US" 1
    (background_callback ⟨0⟩ (start_handler true true initialState))

/-- Counterexample to C7 as stated: after stop() and a second start(), the
accumulated transcript (the worker's accumulator `transcribed_text`) still
holds the first session's text "old" — it is not cleared to the empty string
— and the first successful capture result of the new session is appended to
it, so the session-state transcript reads "old new" instead of "new". -/
theorem C7_counterexample :
    stateC7.transcribed_text = "old" ∧
    (start_handler true true (stop_handler true stateC7)).transcribed_text = "old" ∧
    (start_handler true true (stop_handler true stateC7)).transcribed_text ≠ "" ∧
    (worker_run backendC7 "Google" "en-US" 1 (background_callback ⟨1⟩
        (start_handler true true (stop_handler true stateC7)))).last_transcription =
      "old new" := by
  refine ⟨rfl, rfl, by decide, rfl⟩

/-- C7 (amended): a second start() from a stopped state clears the error log
and the displayed session transcript (`last_transcription`) to the empty
string, but leaves the worker's internal accumulator `transcribed_text`
unchanged — so the next successful capture result is appended to the
previous session's accumulated text rather than starting fresh. -/
theorem C7_restart_amended (s : AppState) (hl : s.listening = false) :
    (start_handler true true s).last_error = "" ∧
    (start_handler true true s).last_transcription = "" ∧
    (start_handler true true s).transcribed_text = s.transcribed_text := by
  simp [start_handler, hl]

/-- Witness for C7 (amended) at a concrete input: restarting after the "old"
session clears the two session-state keys but keeps the accumulator at
"old". -/
theorem C7_restart_amended_witness :
    (start_handler true true (stop_handler true stateC7)).last_error = "" ∧
    (start_handler true true (stop_handler true stateC7)).last_transcription = "" ∧
    (start_handler true true (stop_handler true stateC7)).transcribed_text = "old" := by
  have h := C7_restart_amended (stop_handler true stateC7) (by decide)
  exact ⟨h.1, h.2.1, h.2.2.trans (by decide)⟩

/-! ## Claim C8: only the last error is retained -/

/-- The last element of a list of messages, or `dflt` when there is none. -/
def last_or (dflt : String) : List String → String
  | [] => dflt
  | [m] => m
  | _ :: m :: rest => last_or dflt (m :: rest)

theorem last_or_of_ne_nil (d1 d2 : String) :
    ∀ (L : List String), L ≠ [] → last_or d1 L = last_or d2 L := by
  intro L
  induction L with
  | nil => intro h; exact absurd rfl h
  | cons m rest ih =>
    intro _
    cases rest with
    | nil => rfl
    | cons x xs => simp only [last_or]; exact ih (by simp)

theorem run_error_last_or (backend : Backend) (api_choice language : String)
    (q : List AudioUnit) : ∀ e, run_error backend api_choice language e q =
      last_or e (failure_msgs backend api_choice language q) := by
  induction q with
  | nil => intro e; rfl
  | cons u rest ih =>
    intro e
    by_cases hr : (transcribe_audio_data backend u api_choice language).1
    · have hfm : failure_msgs backend api_choice language (u :: rest) =
          failure_msgs backend api_choice language rest := by
        simp [failure_msgs, List.filterMap_cons, hr]
      have hrun : run_error backend api_choice language e (u :: rest) =
          run_error backend api_choice language e rest := by
        simp [run_error, hr]
      rw [hrun, hfm, ih e]
    · have hfm : failure_msgs backend api_choice language (u :: rest) =
          (transcribe_audio_data backend u api_choice language).2 ::
            failure_msgs backend api_choice language rest := by
        simp [failure_msgs, List.filterMap_cons, hr]
      have hrun : run_error backend api_choice language e (u :: rest) =
          run_error backend api_choice language
            (transcribe_audio_data backend u api_choice language).2 rest := by
        simp [run_error, hr]
      rw [hrun, hfm, ih _]
      cases hL : failure_msgs backend api_choice language rest with
      | nil => rfl
      | cons x xs =>
        simp only [last_or]
        exact last_or_of_ne_nil _ e (x :: xs) (by simp)

/-- C8: the worker overwrites (never accumulates) the error log, so after
processing the whole queue `last_error` is exactly the message of the most
recent failure (or its prior value when nothing failed); the single-shot
path likewise overwrites `last_error` with its failure's message. -/
theorem C8_only_last_error (backend : Backend) (api_choice language : String)
    (s : AppState) (q : List AudioUnit)
    (hl : s.listening = true) (hp : s.paused = false) (hq : s.audioQueue = q) :
    (worker_run backend api_choice language q.length s).last_error =
      last_or s.last_error (failure_msgs backend api_choice language q) ∧
    (∀ audio, (transcribe_audio_data backend audio api_choice language).1 = false →
      (single_shot_handler true true audio backend api_choice language s).last_error =
        (transcribe_audio_data backend audio api_choice language).2) := by
  constructor
  · have hd := worker_drain backend api_choice language q s hl hp hq
    rw [hd]
    exact run_error_last_or backend api_choice language q s.last_error
  · intro audio hfail
    simp [single_shot_handler, hfail]

/-- Scenario backend for the C8 witness: units 0 and 1 fail with different
service errors, unit 2 succeeds. -/
def backendC8 : Backend := fun _api _language u =>
  match u.tag with
  | 0 => .requestError "first failure"
  | 1 => .requestError "second failure"
  | _ => .ok "done"

/-- Concrete listening state with units 0, 1, 2 queued, for the C8 witness. -/
def stateC8 : AppState :=
  background_callback ⟨2⟩ (background_callback ⟨1⟩ (background_callback ⟨0⟩
    (start_handler true true initialState)))

/-- Witness for C8 at a concrete input: after two distinct failures and one
success, only the second failure's message is retained. -/
theorem C8_only_last_error_witness :
    (worker_run backendC8 "Google" "en-US" 3 stateC8).last_error =
      serviceUnavailableMsg "Google" "second failure" := by
  have h := C8_only_last_error backendC8 "Google" "en-US" stateC8
    [⟨0⟩, ⟨1⟩, ⟨2⟩] (by decide) (by decide) (by decide)
  exact h.1.trans (by decide)
